import Mathlib

/-!
Verification of the scoring core of the Superblock-Detector pipeline
(`superblock-detector-bs.py`): the quantile classifier
(`calculate_quantile_score`), the ratio classifier and the weighted
composite scorer (both inside `phase_4_quantilskala`).

Real values carried by features are modelled as exact rationals (`ℚ`).
The Python decimal literals (`0.142857`, `85.7`, ...) are modelled by the
exact decimal fractions they denote; the nearest-double rounding of those
literals never changes any comparison or floor used by the claims below.
-/

namespace SuperblockDetector

/-- Raw content of a feature's attribute field as seen by
`calculate_quantile_score`: `null` models Python `None` / QGIS `NULL`,
`empty` the empty string `''`, `invalid` a value whose `float()` conversion
raises `ValueError`/`TypeError`, and `num q` a value convertible to the real
number `q`. -/
inductive RawValue where
  | null
  | empty
  | invalid
  | num (q : ℚ)
deriving DecidableEq

/-- Embeds the value-collection loop of `calculate_quantile_score`
(lines 493-500): keep exactly the non-null, non-empty, convertible values,
skipping the rest. -/
def collectValues (rows : List RawValue) : List ℚ :=
  rows.filterMap fun r =>
    match r with
    | .num q => some q
    | _ => none

/-- Embeds `values.sort()` (ascending).  On rationals the sorted output is
order-unique, so any correct sort models Python's sort. -/
def sortAsc (l : List ℚ) : List ℚ :=
  l.insertionSort (· ≤ ·)

/-- The six empirical breakpoints `q1`..`q6` computed at lines 512-519. -/
structure Quantiles where
  q1 : ℚ
  q2 : ℚ
  q3 : ℚ
  q4 : ℚ
  q5 : ℚ
  q6 : ℚ
deriving DecidableEq

/-- Embeds the index expression `int(n * 0.cccccc)` of lines 513-518, where
`0.cccccc` is the six-digit decimal constant `c / 1000000` (the source writes
`0.142857`, `0.285714`, `0.428571`, `0.571429`, `0.714286`, `0.857143` -
truncated decimals, not the exact fractions `k/7`).  Both factors are
non-negative, so Python's truncating `int()` is the floor, and
`⌊n * (c / 1000000)⌋ = n * c / 1000000` in natural-number division. -/
def qIndex (n : ℕ) (c : ℕ) : ℕ :=
  n * c / 1000000

/-- Embeds the `quantiles` dictionary of lines 512-519: each breakpoint is the
sorted sample's entry at `int(n * 0.cccccc)` (the `getD` default is never used:
every index is in bounds for a non-empty sample, see `qIndex_in_bounds`). -/
def computeQuantiles (values : List ℚ) : Quantiles where
  q1 := values.getD (qIndex values.length 142857) 0
  q2 := values.getD (qIndex values.length 285714) 0
  q3 := values.getD (qIndex values.length 428571) 0
  q4 := values.getD (qIndex values.length 571429) 0
  q5 := values.getD (qIndex values.length 714286) 0
  q6 := values.getD (qIndex values.length 857143) 0

/-- Embeds the `elif` scoring ladder of lines 535-549: first matching
inclusive upper bound wins, `3` when the value exceeds every breakpoint. -/
def quantileLadder (qs : Quantiles) (v : ℚ) : ℤ :=
  if v ≤ qs.q1 then -3
  else if v ≤ qs.q2 then -2
  else if v ≤ qs.q3 then -1
  else if v ≤ qs.q4 then 0
  else if v ≤ qs.q5 then 1
  else if v ≤ qs.q6 then 2
  else 3

/-- Breakpoints derived from an unsorted sample: sort, then index. -/
def quantilesOfSample (sample : List ℚ) : Quantiles :=
  computeQuantiles (sortAsc sample)

/-- The structural failure of `calculate_quantile_score`: the
`QgsProcessingException` raised at line 504 when no valid values remain
(the spec's `EmptyInputError`). -/
inductive QuantileError where
  | emptyInput
deriving DecidableEq

/-- Embeds `calculate_quantile_score` for one field: collect the valid
values, fail when none remain, otherwise sort, compute the six breakpoints,
and produce one score per original feature - `some` ladder score for features
with a valid value, `none` (field left unset) for the rest. -/
def calculate_quantile_score (rows : List RawValue) :
    Except QuantileError (List (Option ℤ)) :=
  let values := collectValues rows
  if values.isEmpty then .error .emptyInput
  else
    let qs := quantilesOfSample values
    .ok (rows.map fun r =>
      match r with
      | .num v => some (quantileLadder qs v)
      | _ => none)

/-- Division as evaluated by the QGIS expression engine that runs the
`score_verhaeltnis` formula (lines 1066-1081): division by zero yields
`NULL`, modelled as `none`. -/
def exprDiv (a b : ℚ) : Option ℚ :=
  if b = 0 then none else some (a / b)

/-- A `@p >= t` comparison in the QGIS `CASE` expression: a comparison
against `NULL` is not true, so the `WHEN` branch is not taken. -/
def exprGE (p : Option ℚ) (t : ℚ) : Bool :=
  match p with
  | none => false
  | some v => decide (t ≤ v)

/-- Embeds the `score_verhaeltnis` field-calculator formula of lines
1066-1081: `p = 100 * width / height`, then the descending `CASE` ladder
with thresholds `85.7, 71.4, 57.1, 42.8, 28.5, 14.2` and `ELSE -3`. -/
def score_verhaeltnis (width height : ℚ) : ℤ :=
  let p := exprDiv (100 * width) height
  if exprGE p (857/10) then 3
  else if exprGE p (714/10) then 2
  else if exprGE p (571/10) then 1
  else if exprGE p (428/10) then 0
  else if exprGE p (285/10) then -1
  else if exprGE p (142/10) then -2
  else -3

/-- Mirror of the spec's ratio ladder, written from the spec's words
(inclusive lower bounds on `p` directly), to be compared with the source
formula `score_verhaeltnis`. -/
def ratioLadderSpec (p : ℚ) : ℤ :=
  if p ≥ 857/10 then 3
  else if p ≥ 714/10 then 2
  else if p ≥ 571/10 then 1
  else if p ≥ 428/10 then 0
  else if p ≥ 285/10 then -1
  else if p ≥ 142/10 then -2
  else -3

/-- The QGIS `round()` of the final-score formula: round half away from
zero. -/
def qgsRound (x : ℚ) : ℤ :=
  if 0 ≤ x then ⌊x + 1/2⌋ else ⌈x - 1/2⌉

/-- Embeds the final-score formula built at line 1106:
`round(geb_weight/100 * "score_geb_sum_norm" + verh_weight/100 *
"score_verhaeltnis")`. -/
def final_score (geb_weight verh_weight score_geb score_verh : ℤ) : ℤ :=
  qgsRound ((geb_weight : ℚ) / 100 * score_geb + (verh_weight : ℚ) / 100 * score_verh)

/-- The weight-validation failure of `phase_4_quantilskala` (lines 997-998),
the spec's `InvalidWeightError`. -/
inductive WeightError where
  | invalidWeight
deriving DecidableEq

/-- Embeds the composite-scoring step of `phase_4_quantilskala`: the weight
check at lines 997-998 runs before anything is written; on success every
feature's pair of scores is combined by `final_score`. -/
def phase_4_final_scores (geb_weight verh_weight : ℤ) (features : List (ℤ × ℤ)) :
    Except WeightError (List ℤ) :=
  if geb_weight + verh_weight ≠ 100 then .error .invalidWeight
  else .ok (features.map fun f => final_score geb_weight verh_weight f.1 f.2)

/-- The scoring ladder always lands in the symmetric band `[-3, 3]`. -/
lemma quantileLadder_mem_band (qs : Quantiles) (v : ℚ) :
    -3 ≤ quantileLadder qs v ∧ quantileLadder qs v ≤ 3 := by
  unfold quantileLadder
  split_ifs <;> omega

/-- The scoring ladder is monotone in the value, for any breakpoints. -/
lemma quantileLadder_mono (qs : Quantiles) {x y : ℚ} (hxy : x ≤ y) :
    quantileLadder qs x ≤ quantileLadder qs y := by
  unfold quantileLadder
  split_ifs <;> linarith

/-- Sorting a constant list is the identity. -/
lemma sortAsc_replicate (n : ℕ) (v : ℚ) :
    sortAsc (List.replicate n v) = List.replicate n v := by
  have hp : (sortAsc (List.replicate n v)).Perm (List.replicate n v) :=
    List.perm_insertionSort _ _
  refine List.eq_replicate_iff.2 ⟨?_, ?_⟩
  · simpa using hp.length_eq
  · intro b hb
    exact List.eq_of_mem_replicate (hp.mem_iff.mp hb)

/-- On success, `calculate_quantile_score` returns the per-feature map over
the breakpoints of the collected sample. -/
lemma calculate_quantile_score_ok {rows : List RawValue} {scores : List (Option ℤ)}
    (h : calculate_quantile_score rows = .ok scores) :
    scores = rows.map fun r =>
      match r with
      | .num v => some (quantileLadder (quantilesOfSample (collectValues rows)) v)
      | _ => none := by
  unfold calculate_quantile_score at h
  by_cases hc : (collectValues rows).isEmpty
  · simp [hc] at h
  · simp only [hc, Bool.false_eq_true, if_false, Except.ok.injEq] at h
    exact h.symm

/-- C1, counterexample.  The claim predicts breakpoint indices
`floor(n * k/7)` - for the sorted sample `[1,2,3,4,5,6,7]` the indices
`[1,2,3,4,5,6]` and breakpoint values `[2,3,4,5,6,7]`, so `q1 = 2`.  The
code's first index is `int(7 * 0.142857) = 0`, not `floor(7 * 1/7) = 1`,
and the first breakpoint value is `1`, not `2`. -/
theorem quantile_breakpoints_claim_counterexample :
    (quantilesOfSample [1, 2, 3, 4, 5, 6, 7]).q1 = 1 ∧ (1 : ℚ) ≠ 2 ∧
    qIndex 7 142857 = 0 ∧ 7 * 1 / 7 = 1 := by
  refine ⟨by decide, by norm_num, by decide, by norm_num⟩

/-- C1, amended.  The six breakpoint indices are `int(n * c)` for the
truncated decimal constants `c` in `{0.142857, 0.285714, 0.428571, 0.571429,
0.714286, 0.857143}` (approximations of `k/7` that can differ from
`floor(n * k/7)`, as at `n = 7`); for the sample `[1,2,3,4,5,6,7]` the
indices are `[0,1,2,4,5,6]` and the breakpoint values `[1,2,3,5,6,7]`. -/
theorem quantile_breakpoints_decimal_indices :
    [qIndex 7 142857, qIndex 7 285714, qIndex 7 428571,
      qIndex 7 571429, qIndex 7 714286, qIndex 7 857143] = [0, 1, 2, 4, 5, 6] ∧
    quantilesOfSample [1, 2, 3, 4, 5, 6, 7] = ⟨1, 2, 3, 5, 6, 7⟩ := by
  refine ⟨by decide, by decide⟩

/-- C4, counterexample.  For the sample of seven identical values `5`, all
six breakpoints are `5`, but the value scores `-3` (the ascending ladder's
first inclusive bound absorbs the tie), not `2` as claimed. -/
theorem identical_sample_score_counterexample :
    quantilesOfSample [5, 5, 5, 5, 5, 5, 5] = ⟨5, 5, 5, 5, 5, 5⟩ ∧
    quantileLadder (quantilesOfSample [5, 5, 5, 5, 5, 5, 5]) 5 = -3 := by
  refine ⟨by decide, by decide⟩

/-- Each breakpoint index is within the sorted sample, for any non-empty
sample. -/
lemma qIndex_lt (n : ℕ) (hn : 1 ≤ n) (c : ℕ) (hc : c < 1000000) :
    qIndex n c < n := by
  unfold qIndex
  rw [Nat.div_lt_iff_lt_mul (by norm_num)]
  have hn0 : 0 < n := hn
  exact mul_lt_mul_of_pos_left hc hn0

/-- On a constant sample every breakpoint is that constant. -/
lemma computeQuantiles_replicate (n : ℕ) (hn : 1 ≤ n) (v : ℚ) :
    computeQuantiles (List.replicate n v) = ⟨v, v, v, v, v, v⟩ := by
  have hd : ∀ c : ℕ, c < 1000000 →
      (List.replicate n v).getD (qIndex (List.replicate n v).length c) 0 = v := by
    intro c hc
    have hlt : qIndex (List.replicate n v).length c < (List.replicate n v).length := by
      rw [List.length_replicate]
      exact qIndex_lt n hn c hc
    rw [List.getD_eq_getElem _ 0 hlt, List.getElem_replicate]
  simp only [computeQuantiles]
  rw [hd 142857 (by norm_num), hd 285714 (by norm_num), hd 428571 (by norm_num),
    hd 571429 (by norm_num), hd 714286 (by norm_num), hd 857143 (by norm_num)]

/-- C4, amended.  For any sample of 7 identical values all six breakpoints
equal that value, and the value is assigned score `-3`: the ladder tests
`value ≤ q1` first, so a tie with every breakpoint falls into the lowest
bucket, not the `2` bucket. -/
theorem identical_sample_breakpoints_and_score (v : ℚ) :
    quantilesOfSample (List.replicate 7 v) = ⟨v, v, v, v, v, v⟩ ∧
    quantileLadder (quantilesOfSample (List.replicate 7 v)) v = -3 := by
  have hq : quantilesOfSample (List.replicate 7 v) = ⟨v, v, v, v, v, v⟩ := by
    unfold quantilesOfSample
    rw [sortAsc_replicate]
    exact computeQuantiles_replicate 7 (by norm_num) v
  refine ⟨hq, ?_⟩
  rw [hq]
  simp [quantileLadder]

/-- C10.  For every non-empty sample of `n` valid values, each of the six
index expressions `int(n * c)` lies in `[0, n-1]`, so the indexing into the
sorted value list is always in bounds. -/
theorem qIndex_in_bounds (n : ℕ) (hn : 1 ≤ n) (c : ℕ)
    (hc : c ∈ [142857, 285714, 428571, 571429, 714286, 857143]) :
    qIndex n c ≤ n - 1 := by
  have hclt : c < 1000000 := by
    simp only [List.mem_cons, List.not_mem_nil, or_false] at hc
    rcases hc with h | h | h | h | h | h <;> omega
  have := qIndex_lt n hn c hclt
  omega

/-- C10, witness at `n = 7` with the first constant. -/
theorem qIndex_in_bounds_witness : qIndex 7 142857 ≤ 7 - 1 :=
  qIndex_in_bounds 7 (by decide) 142857 (by decide)

/-- C2.  On success, every feature with a valid source value is scored by
the inclusive-upper-bound ladder over the sample's six breakpoints, and
every feature with a null, empty or unconvertible source value receives no
score. -/
theorem quantile_scores_assignment (rows : List RawValue) (scores : List (Option ℤ))
    (h : calculate_quantile_score rows = .ok scores) (i : ℕ) :
    (∀ v : ℚ, rows[i]? = some (RawValue.num v) →
      scores[i]? = some (some (quantileLadder (quantilesOfSample (collectValues rows)) v))) ∧
    (∀ r : RawValue, rows[i]? = some r → (∀ v : ℚ, r ≠ RawValue.num v) →
      scores[i]? = some none) := by
  have hs := calculate_quantile_score_ok h
  subst hs
  constructor
  · intro v hv
    rw [List.getElem?_map, hv]
    rfl
  · intro r hrr hnv
    rw [List.getElem?_map, hrr]
    cases r with
    | num v => exact absurd rfl (hnv v)
    | null => rfl
    | empty => rfl
    | invalid => rfl

/-- C2, witness: in the table `[num 1, null]` the first feature is scored by
the ladder and the null feature is left unset. -/
theorem quantile_scores_assignment_witness :
    ([some (-3), none] : List (Option ℤ))[0]? =
      some (some (quantileLadder
        (quantilesOfSample (collectValues [RawValue.num 1, RawValue.null])) 1)) :=
  (quantile_scores_assignment [RawValue.num 1, RawValue.null] [some (-3), none]
    (by rfl) 0).1 1 rfl

/-- C3.  For a non-empty sample, every sample value is assigned a score in
the band `[-3, 3]`, and the assignment is monotone: `x ≤ y` implies
`score x ≤ score y`. -/
theorem sample_scores_banded_monotone (sample : List ℚ) (x y : ℚ)
    (_hne : sample ≠ []) (_hx : x ∈ sample) (_hy : y ∈ sample) (hxy : x ≤ y) :
    (-3 ≤ quantileLadder (quantilesOfSample sample) x ∧
      quantileLadder (quantilesOfSample sample) x ≤ 3) ∧
    quantileLadder (quantilesOfSample sample) x ≤
      quantileLadder (quantilesOfSample sample) y :=
  ⟨quantileLadder_mem_band _ x, quantileLadder_mono _ hxy⟩

/-- C3, witness on the sample `[1, 2]` with `x = 1 ≤ y = 2`. -/
theorem sample_scores_banded_monotone_witness :
    ((-3 ≤ quantileLadder (quantilesOfSample [1, 2]) 1 ∧
        quantileLadder (quantilesOfSample [1, 2]) 1 ≤ 3) ∧
      quantileLadder (quantilesOfSample [1, 2]) 1 ≤
        quantileLadder (quantilesOfSample [1, 2]) 2) :=
  sample_scores_banded_monotone [1, 2] 1 2 (by decide) (by decide) (by decide) (by decide)

/-- C9.  The quantile scorer fails with the empty-input error exactly when
no valid values remain after skipping null, empty and unconvertible
entries; with at least one valid value it does not raise it. -/
theorem empty_input_error_iff (rows : List RawValue) :
    calculate_quantile_score rows = .error .emptyInput ↔ collectValues rows = [] := by
  unfold calculate_quantile_score
  by_cases hc : collectValues rows = []
  · simp [hc]
  · simp [hc, List.isEmpty_iff]

/-- C5.  For non-degenerate heights the ratio formula agrees with the
spec's descending inclusive-lower-bound ladder on `p = 100 * width /
height`; in particular `p = 100` scores `3`, `p = 50` scores `0`, `p = 10`
scores `-3`, and `p = 0` (zero width) scores `-3` rather than failing. -/
theorem ratio_ladder_spec :
    (∀ width height : ℚ, height ≠ 0 →
      score_verhaeltnis width height = ratioLadderSpec (100 * width / height)) ∧
    score_verhaeltnis 1 1 = 3 ∧ score_verhaeltnis 1 2 = 0 ∧
    score_verhaeltnis 1 10 = -3 ∧ score_verhaeltnis 0 1 = -3 := by
  constructor
  · intro width height hne
    simp only [score_verhaeltnis, ratioLadderSpec, exprDiv, exprGE, if_neg hne,
      decide_eq_true_eq, ge_iff_le]
  · refine ⟨?_, ?_, ?_, ?_⟩ <;>
      norm_num [score_verhaeltnis, exprDiv, exprGE]

/-- C5, witness at `width = 1, height = 1`. -/
theorem ratio_ladder_spec_witness :
    score_verhaeltnis 1 1 = ratioLadderSpec (100 * 1 / 1) :=
  ratio_ladder_spec.1 1 1 one_ne_zero

/-- C6, counterexample.  At `width = 1, height = 0` the formula does not
signal any error: the feature is silently assigned the ratio score `-3`
(the expression's division by zero yields `NULL`, every threshold
comparison fails, and the `ELSE` branch fires). -/
theorem ratio_zero_height_counterexample :
    score_verhaeltnis 1 0 = -3 := by
  simp [score_verhaeltnis, exprDiv, exprGE]

/-- C6, amended.  For any width, a zero-height feature is silently scored
`-3` by the `CASE` expression's `ELSE` branch; no division-by-zero error
path exists in the code. -/
theorem ratio_zero_height_silent_score (width : ℚ) :
    score_verhaeltnis width 0 = -3 := by
  simp [score_verhaeltnis, exprDiv, exprGE]

/-- C7.  The composite scorer computes
`round(geb_weight/100 * score_geb + verh_weight/100 * score_verh)`; with
weights `80/20` and scores `3` and `-3` the weighted sum is `1.8 = 9/5`
and the final score is `2`. -/
theorem final_score_formula :
    (∀ g v a b : ℤ, final_score g v a b =
      qgsRound ((g : ℚ) / 100 * a + (v : ℚ) / 100 * b)) ∧
    ((80 : ℚ) / 100 * 3 + (20 : ℚ) / 100 * (-3) = 9/5) ∧
    qgsRound (9/5) = 2 ∧ final_score 80 20 3 (-3) = 2 := by
  refine ⟨fun g v a b => rfl, by norm_num, ?_, ?_⟩
  · norm_num [qgsRound]
  · show qgsRound ((80 : ℚ) / 100 * 3 + (20 : ℚ) / 100 * (-3)) = 2
    norm_num [qgsRound]

/-- C8, counterexample.  A negative weight is accepted as long as the two
weights sum to 100: with `geb_weight = -20, verh_weight = 120` the
composite step succeeds and writes output instead of failing with the
invalid-weight error. -/
theorem weight_check_counterexample :
    phase_4_final_scores (-20) 120 [(0, 0)] = .ok [0] := by
  norm_num [phase_4_final_scores, final_score, qgsRound]

/-- C8, amended.  The composite step fails with the invalid-weight error
(writing no output) exactly when the two weights do not sum to 100; in
particular `60/30` is rejected.  Negative weights are not separately
rejected. -/
theorem weight_check_sum_only :
    (∀ (g v : ℤ) (features : List (ℤ × ℤ)),
      phase_4_final_scores g v features = .error .invalidWeight ↔ g + v ≠ 100) ∧
    phase_4_final_scores 60 30 [] = .error .invalidWeight := by
  constructor
  · intro g v features
    unfold phase_4_final_scores
    by_cases h : g + v = 100
    · simp [h]
    · simp [h]
  · norm_num [phase_4_final_scores]

/-- C4, witness of the amended statement at `v = 5`. -/
theorem identical_sample_breakpoints_and_score_witness :
    quantilesOfSample (List.replicate 7 (5 : ℚ)) = ⟨5, 5, 5, 5, 5, 5⟩ ∧
    quantileLadder (quantilesOfSample (List.replicate 7 (5 : ℚ))) 5 = -3 :=
  identical_sample_breakpoints_and_score 5

/-- C6, witness of the amended statement at `width = 2`. -/
theorem ratio_zero_height_silent_score_witness :
    score_verhaeltnis 2 0 = -3 :=
  ratio_zero_height_silent_score 2

/-- C7, witness at the spec's own example. -/
theorem final_score_formula_witness :
    final_score 80 20 3 (-3) =
      qgsRound ((80 : ℚ) / 100 * 3 + (20 : ℚ) / 100 * (-3)) :=
  final_score_formula.1 80 20 3 (-3)

/-- C8, witness of the amended statement at the weights `10/20`. -/
theorem weight_check_sum_only_witness :
    phase_4_final_scores 10 20 [] = .error .invalidWeight ↔ (10 : ℤ) + 20 ≠ 100 :=
  weight_check_sum_only.1 10 20 []

/-- C9, witness at a table with a single null entry. -/
theorem empty_input_error_iff_witness :
    calculate_quantile_score [RawValue.null] = .error .emptyInput ↔
      collectValues [RawValue.null] = [] :=
  empty_input_error_iff [RawValue.null]

end SuperblockDetector
